import Mathlib

/-
Verification of the report-ingestion pipeline in `api/surf/scripps.js`
(conorhulburt/scripps-surf-widget).

The pipeline is embedded shallowly: JS strings are Lean `String`s (handled
through their character lists so every definition reduces in the kernel),
JS numbers are exact `Rat`s (the source only multiplies, divides and
compares; float rounding is below every tolerance used in the claims),
the network is an oracle `String → Except String String` mapping a URL to
either an error message or a body, and the module-level `cache` object is
explicit state threaded through the handler.
-/

namespace Scripps

/-! ### Character and string utilities (kernel-reducible counterparts of the
JS string operations used by the source) -/

def wsChar (c : Char) : Bool := c.isWhitespace

/-- `String.prototype.trim`. -/
def trimChars (cs : List Char) : List Char :=
  ((cs.dropWhile wsChar).reverse.dropWhile wsChar).reverse

def trimStr (s : String) : String := String.mk (trimChars s.toList)

/-- Split a character list at every separator character; empty segments are
kept (callers filter them, matching the `/\s+/` splits in the source, whose
inputs are pre-trimmed so the filtered results coincide). -/
def splitChars (p : Char → Bool) : List Char → List (List Char)
  | [] => [[]]
  | c :: cs =>
    if p c then [] :: splitChars p cs
    else
      match splitChars p cs with
      | [] => [[c]]
      | g :: gs => (c :: g) :: gs

/-- `maybeHeader.split(/\s+/).filter(t => t.length > 0)`; also used for data
lines, whose text is already trimmed and non-empty so `/\s+/` produces no
empty tokens either. -/
def tokensOf (s : String) : List String :=
  ((splitChars wsChar s.toList).map String.mk).filter (fun t => !(t == ""))

/-- `text.split(/\r?\n/).map(l => l.trim()).filter(l => l.length > 0)`:
splitting on `'\n'` and trimming each piece also removes a trailing `'\r'`. -/
def linesOf (text : String) : List String :=
  ((splitChars (fun c => c == '\n') text.toList).map
      (fun cs => String.mk (trimChars cs))).filter (fun l => !(l == ""))

/-- `line.startsWith("#")`. -/
def startsWithHash (s : String) : Bool :=
  match s.toList with
  | '#' :: _ => true
  | _ => false

/-- `line.replace(/^#+\s*/, "")`. -/
def stripHeaderMarker (s : String) : String :=
  String.mk ((s.toList.dropWhile (fun c => c == '#')).dropWhile wsChar)

/-- `String.prototype.toLowerCase` (ASCII, as in the station ids used). -/
def lowerStr (s : String) : String := String.mk (s.toList.map Char.toLower)

/-! ### `Number(str)` and `parseNum` -/

/-- Consume a leading run of decimal digits, returning the accumulated value,
the count of digits consumed, and the remaining characters. -/
def parseDigitRun : List Char → Nat → Nat → Nat × Nat × List Char
  | [], v, n => (v, n, [])
  | c :: cs, v, n =>
    if c.isDigit then parseDigitRun cs (v * 10 + (c.toNat - 48)) (n + 1)
    else (v, n, c :: cs)

/-- Mantissa of a JS decimal numeral: `digits [. digits]` with at least one
digit overall. -/
def parseMantissa (cs : List Char) : Option (Rat × List Char) :=
  match parseDigitRun cs 0 0 with
  | (iv, ic, rest) =>
    match rest with
    | '.' :: r2 =>
      match parseDigitRun r2 0 0 with
      | (fv, fc, r3) =>
        if ic = 0 ∧ fc = 0 then none
        else some ((iv : Rat) + (fv : Rat) / (10 : Rat) ^ fc, r3)
    | _ => if ic = 0 then none else some ((iv : Rat), rest)

/-- Exponent tail after `e`/`E`: optional sign then at least one digit,
consuming the whole remainder. -/
def parseExpTail (cs : List Char) : Option Int :=
  match cs with
  | '+' :: r =>
    (match parseDigitRun r 0 0 with
     | (v, n, rest) => if n = 0 ∨ rest ≠ [] then none else some (v : Int))
  | '-' :: r =>
    (match parseDigitRun r 0 0 with
     | (v, n, rest) => if n = 0 ∨ rest ≠ [] then none else some (-(v : Int)))
  | r =>
    (match parseDigitRun r 0 0 with
     | (v, n, rest) => if n = 0 ∨ rest ≠ [] then none else some (v : Int))

/-- The decimal-numeral fragment of JS `Number` on an already-trimmed token,
yielding `some` exactly for finite decimal results.  Tokens that JS maps to
`NaN` or `±Infinity` yield `none`, which is also what `parseNum` turns them
into.  The hexadecimal/binary/octal literal forms accepted by `Number` are
not modelled: they cannot reach `parseNum` with a different outcome in this
feed format's whitespace-delimited decimal columns. -/
def jsNumber (s : String) : Option Rat :=
  match s.toList with
  | '+' :: r =>
    (match parseMantissa r with
     | none => none
     | some (m, rest) =>
       match rest with
       | [] => some m
       | 'e' :: r2 => (parseExpTail r2).map (fun e => m * (10 : Rat) ^ e)
       | 'E' :: r2 => (parseExpTail r2).map (fun e => m * (10 : Rat) ^ e)
       | _ => none)
  | '-' :: r =>
    (match parseMantissa r with
     | none => none
     | some (m, rest) =>
       match rest with
       | [] => some (-m)
       | 'e' :: r2 => (parseExpTail r2).map (fun e => -(m * (10 : Rat) ^ e))
       | 'E' :: r2 => (parseExpTail r2).map (fun e => -(m * (10 : Rat) ^ e))
       | _ => none)
  | cs =>
    (match parseMantissa cs with
     | none => none
     | some (m, rest) =>
       match rest with
       | [] => some m
       | 'e' :: r2 => (parseExpTail r2).map (fun e => m * (10 : Rat) ^ e)
       | 'E' :: r2 => (parseExpTail r2).map (fun e => m * (10 : Rat) ^ e)
       | _ => none)

def allZeros (cs : List Char) : Bool := cs.all (fun c => c == '0')

/-- The regex `/^9+(\.0+)?$/`: one or more `9`s, optionally followed by a
decimal point and one or more `0`s. -/
def isNinesToken (s : String) : Bool :=
  let cs := s.toList
  let rest := cs.dropWhile (fun c => c == '9')
  !(cs.takeWhile (fun c => c == '9')).isEmpty &&
    (match rest with
     | [] => true
     | '.' :: zs => !zs.isEmpty && allZeros zs
     | _ => false)

/-- `parseNum` from the source: trim, reject the reserved missing markers and
the all-nines sentinel, then convert with `Number`, keeping only finite
results.  Zero is a valid value and is not filtered out. -/
def parseNum (value : Option String) : Option Rat :=
  match value with
  | none => none
  | some v =>
    let str := trimStr v
    if str == "" || str == "MM" || str == "NaN" || str == "N/A" then none
    else if isNinesToken str then none
    else
      match jsNumber str with
      | none => none
      | some n => some n

/-! ### Feed scan: header line and data rows -/

/-- Accumulator of the line scan: the most recently recognised header line's
tokens (each recognised comment line overwrites the previous value, as the
source assigns `headerTokens = tokens` unconditionally) and the data rows
collected so far. -/
structure ScanState where
  headerTokens : Option (List String)
  dataRows : List (List String)
deriving Repr, DecidableEq

/-- One iteration of the line loop: a comment line whose stripped tokens
include `YY`, `MM` and `DD` becomes the current header; any other comment
line is skipped; a non-comment line is kept as a data row when a header has
been seen and the line has at least as many tokens as that header. -/
def scanLine (st : ScanState) (line : String) : ScanState :=
  if startsWithHash line then
    let tokens := tokensOf (stripHeaderMarker line)
    if tokens.contains "YY" && tokens.contains "MM" && tokens.contains "DD" then
      { st with headerTokens := some tokens }
    else st
  else
    match st.headerTokens with
    | none => st
    | some h =>
      let tokens := tokensOf line
      if tokens.length < h.length then st
      else { st with dataRows := st.dataRows ++ [tokens] }

def scanFeed (lines : List String) : ScanState :=
  lines.foldl scanLine ⟨none, []⟩

/-- `Object.fromEntries(headerTokens.map((name, i) => [name, i]))`: on
duplicate column names the later position wins, so this is the last index of
`name` in the header. -/
def idxLookup (header : List String) (name : String) : Option Nat :=
  ((header.enum.filter (fun p => p.2 == name)).map (fun p => p.1)).getLast?

/-! ### Field access patterns -/

/-- The ternary-chain pattern
`idx[a] != null ? latest[idx[a]] : idx[b] != null ? latest[idx[b]] : null`:
the token at the first alias present in the index (an out-of-range position
reads as `undefined`, i.e. `none`); no fallback to later aliases once an
alias is present. -/
def tokenTernary (header latest : List String) : List String → Option String
  | [] => none
  | n :: rest =>
    match idxLookup header n with
    | some i => latest[i]?
    | none => tokenTernary header latest rest

/-- `idx["mm"] != null ? latest[idx["mm"]] : 0` — the fallback is the number
`0`, which `parseNum` stringifies to `"0"`. -/
def minsTok (header latest : List String) : Option String :=
  match idxLookup header "mm" with
  | some i => latest[i]?
  | none => some "0"

/-- The guarded single-field pattern
`(F in idx && idx[F] < latest.length) ? parseNum(latest[idx[F]]) : null`. -/
def guardedField (header latest : List String) (name : String) : Option Rat :=
  match idxLookup header name with
  | some i => if i < latest.length then parseNum latest[i]? else none
  | none => none

/-- The alias loop pattern (swell direction, air and water temperature): try
each alias in order; an alias that is present and in bounds but whose token
fails `parseNum` does not stop the loop — the next alias is tried. -/
def firstParsedAlias (header latest : List String) : List String → Option Rat
  | [] => none
  | f :: rest =>
    match idxLookup header f with
    | some i =>
      if i < latest.length then
        match parseNum latest[i]? with
        | some v => some v
        | none => firstParsedAlias header latest rest
      else firstParsedAlias header latest rest
    | none => firstParsedAlias header latest rest

def swellDirFields : List String := ["MWD", "MWWD", "WVDIR", "WAVE_DIR"]
def airTempFields : List String := ["ATMP", "AT", "AIR_TEMP", "TEMP"]
def waterTempFields : List String := ["WTMP", "WT", "WATER_TEMP", "SEA_TEMP"]

/-! ### Unit helpers -/

def mToFt (m : Option Rat) : Option Rat := m.map (fun x => x * (328084 / 100000 : Rat))
def msToKts (ms : Option Rat) : Option Rat := ms.map (fun x => x * (194384 / 100000 : Rat))
def cToF (c : Option Rat) : Option Rat := c.map (fun x => x * 9 / 5 + 32)

/-! ### The normalized report -/

/-- The JSON record the handler builds.  The timestamp is kept as the five
arguments the source passes to `Date.UTC` (the claims only exercise in-range
components, where `Date.UTC` performs no carry normalisation); `month0` is
the zero-based month as in `Date.UTC(year, month - 1, ...)`.  The `meta`
debug block of the source is not part of the record contract and is not
modelled.  The air-temperature value computed by the source is extracted but
never placed in the JSON, so it has no field here (see `airTempOf`). -/
structure Report where
  stationId : String
  name : String
  sourceUrl : String
  year : Rat
  month0 : Rat
  day : Rat
  hour : Rat
  minute : Rat
  windDirDeg : Option Rat
  windKts : Option Rat
  windGustKts : Option Rat
  waveHeightM : Option Rat
  waveHeightFt : Option Rat
  dominantPeriodSec : Option Rat
  averagePeriodSec : Option Rat
  swellDirDeg : Option Rat
  barometricPressureHpa : Option Rat
  waterTempC : Option Rat
  waterTempF : Option Rat
deriving Repr, DecidableEq

/-- The structured failure taxonomy of one pipeline run. -/
inductive PipeError where
  | upstreamUnavailable (errors : List String)
  | malformedFeed (url : String)
  | missingTimestamp (url : String)
deriving Repr, DecidableEq

/-- JS falsiness of a parsed optional number (`!year` etc.): `null` and `0`
are falsy; `NaN` cannot occur since `parseNum` keeps only finite values. -/
def jsFalsy (x : Option Rat) : Bool :=
  match x with
  | none => true
  | some v => decide (v = 0)

def yearOf (header latest : List String) : Option Rat :=
  parseNum (tokenTernary header latest ["YYYY", "YY"])
def monthOf (header latest : List String) : Option Rat :=
  parseNum (tokenTernary header latest ["MM"])
def dayOf (header latest : List String) : Option Rat :=
  parseNum (tokenTernary header latest ["DD"])
def hourOf (header latest : List String) : Option Rat :=
  parseNum (tokenTernary header latest ["hh", "HH"])
def minsOf (header latest : List String) : Option Rat :=
  parseNum (minsTok header latest)

/-- The air-temperature extraction loop; its result is logged by the source
but never written into the JSON record. -/
def airTempOf (header latest : List String) : Option Rat :=
  firstParsedAlias header latest airTempFields

/-- The `json` object assembled on the success path (every field exactly as
the source computes it).  `finalSwellDirDeg`/`finalWaterTempF` in the source
only replace `undefined` by `null`, which cannot occur here. -/
def builtRecord (station url : String) (header latest : List String) : Report :=
  let y := (yearOf header latest).getD 0
  let wtmpC := firstParsedAlias header latest waterTempFields
  { stationId := station
    name := "Scripps Pier, La Jolla, CA"
    sourceUrl := url
    year := if y < 100 then 2000 + y else y
    month0 := (monthOf header latest).getD 0 - 1
    day := (dayOf header latest).getD 0
    hour := (hourOf header latest).getD 0
    minute := (minsOf header latest).getD 0
    windDirDeg := guardedField header latest "WD"
    windKts := msToKts (guardedField header latest "WSPD")
    windGustKts := msToKts (guardedField header latest "GST")
    waveHeightM := guardedField header latest "WVHT"
    waveHeightFt := mToFt (guardedField header latest "WVHT")
    dominantPeriodSec := guardedField header latest "DPD"
    averagePeriodSec := guardedField header latest "APD"
    swellDirDeg := firstParsedAlias header latest swellDirFields
    barometricPressureHpa := parseNum (tokenTernary header latest ["BARO", "PRES"])
    waterTempC := wtmpC
    waterTempF := cToF wtmpC }

/-- Field extraction for the latest data row, mirroring the source from the
`parseNum` calls for the time fields (with the falsy guard that raises
`MissingTimestamp`) through the construction of the `json` object. -/
def buildReport (station url : String) (header latest : List String) :
    Except PipeError Report :=
  if jsFalsy (yearOf header latest) || jsFalsy (monthOf header latest) ||
      jsFalsy (dayOf header latest) || (hourOf header latest).isNone then
    Except.error (PipeError.missingTimestamp url)
  else
    Except.ok (builtRecord station url header latest)

/-- Parse a fetched text body: split into trimmed non-empty lines, scan for
header and data rows, fail with `malformedFeed` when either is missing, and
build the report from the first (newest) data row. -/
def parsePipeline (station url : String) (text : String) : Except PipeError Report :=
  match scanFeed (linesOf text) with
  | ⟨some header, latest :: _⟩ => buildReport station url header latest
  | _ => Except.error (PipeError.malformedFeed url)

/-! ### Fetcher -/

def candidateUrls (station : String) : List String :=
  ["https://www.ndbc.noaa.gov/data/realtime2/" ++ station ++ ".txt",
   "https://www.ndbc.noaa.gov/data/5day/" ++ station ++ "_5day.txt",
   "https://www.ndbc.noaa.gov/data/realtime2/" ++ lowerStr station ++ ".txt",
   "https://www.ndbc.noaa.gov/data/5day/" ++ lowerStr station ++ "_5day.txt"]

/-- The candidate loop.  The network oracle maps a URL to either a failure
reason (non-success status, transport error, timeout, or an undecodable
body — all of which the source turns into one pushed error string) or the
fetched text.  Returns the URLs attempted in order, the error strings
recorded in order, and the first success (text and its URL) if any. -/
def fetchLoop (net : String → Except String String) :
    List String → List String × List String × Option (String × String)
  | [] => ([], [], none)
  | url :: rest =>
    match net url with
    | Except.error e =>
      match fetchLoop net rest with
      | (att, errs, r) => (url :: att, (url ++ " -> " ++ e) :: errs, r)
    | Except.ok t => ([url], [], some (t, url))

/-! ### Cache and handler -/

def CACHE_TTL : Int := 5 * 60 * 1000

/-- The module-level `cache` object. -/
structure CacheState where
  data : Option Report
  timestamp : Option Int
deriving Repr, DecidableEq

inductive HandlerResult where
  /-- 200 with the cached record (cache hit short-circuit). -/
  | cached (r : Report)
  /-- 200 with a freshly built record. -/
  | ok (r : Report)
  /-- 500; at the boundary the body is a generic failure message, the
  structured reason is kept here for reasoning. -/
  | err (e : PipeError)
deriving Repr, DecidableEq

structure HandlerOutput where
  result : HandlerResult
  cache : CacheState
  /-- URLs actually fetched during the run, in order. -/
  attempts : List String
deriving Repr, DecidableEq

/-- The record served by a 200 response, if any. -/
def servedReport : HandlerResult → Option Report
  | HandlerResult.cached r => some r
  | HandlerResult.ok r => some r
  | HandlerResult.err _ => none

/-- Range check of `validateData`: warn when the value is present and
outside `[lo, hi]`. -/
def rangeWarn (v : Option Rat) (lo hi : Rat) (msg : Rat → String) : List String :=
  match v with
  | none => []
  | some x => if x < lo ∨ hi < x then [msg x] else []

/-- `validateData`: advisory warnings only; the record is read, never
modified, and nothing is thrown.  Numeric formatting inside the messages
uses Lean's `Rat` rendering in place of JS number formatting. -/
def validateData (r : Report) : List String :=
  rangeWarn r.waveHeightFt 0 50 (fun v => "Unusual wave height: " ++ toString v ++ "ft") ++
  rangeWarn r.dominantPeriodSec 3 30 (fun v => "Unusual period: " ++ toString v ++ "s") ++
  rangeWarn r.swellDirDeg 0 360 (fun v => "Unusual swell direction: " ++ toString v ++ "°") ++
  rangeWarn r.windKts 0 100 (fun v => "Unusual wind speed: " ++ toString v ++ "kts") ++
  rangeWarn r.waterTempF 32 120 (fun v => "Unusual water temp: " ++ toString v ++ "°F")

/-- The cache-miss path of the handler: fetch with fallback, parse, build,
validate (the source discards the returned warnings — they are only passed
to `console.warn` in development mode), store on success, respond.  Every
failure path returns before the cache assignment, leaving the cache as it
was.  The source stamps the cache with a second `Date.now()` call a few
milliseconds after the handler started; both reads are modelled as `now`. -/
def runPipeline (station : String) (now : Int) (net : String → Except String String)
    (c : CacheState) : HandlerOutput :=
  match fetchLoop net (candidateUrls station) with
  | (attempts, errs, none) =>
    ⟨HandlerResult.err (PipeError.upstreamUnavailable errs), c, attempts⟩
  | (attempts, _, some (text, url)) =>
    match parsePipeline station url text with
    | Except.error e => ⟨HandlerResult.err e, c, attempts⟩
    | Except.ok r =>
      let _warnings := validateData r
      ⟨HandlerResult.ok r, ⟨some r, some now⟩, attempts⟩

/-- The handler body (CORS and OPTIONS handling excluded as transport-level
concerns): serve the cached record when
`cache.data && cache.timestamp && Date.now() - cache.timestamp < CACHE_TTL`
(JS truthiness: a timestamp of `0` is falsy), otherwise run the pipeline. -/
def handler (station : String) (now : Int) (net : String → Except String String)
    (c : CacheState) : HandlerOutput :=
  match c.data, c.timestamp with
  | some d, some t =>
    if t ≠ 0 ∧ now - t < CACHE_TTL then ⟨HandlerResult.cached d, c, []⟩
    else runPipeline station now net c
  | _, _ => runPipeline station now net c

/-- `runPipeline` with the `validateData` call removed entirely; used to
show that the computed warnings leave no trace in the handler's output. -/
def runPipelineNoValidate (station : String) (now : Int)
    (net : String → Except String String) (c : CacheState) : HandlerOutput :=
  match fetchLoop net (candidateUrls station) with
  | (attempts, errs, none) =>
    ⟨HandlerResult.err (PipeError.upstreamUnavailable errs), c, attempts⟩
  | (attempts, _, some (text, url)) =>
    match parsePipeline station url text with
    | Except.error e => ⟨HandlerResult.err e, c, attempts⟩
    | Except.ok r => ⟨HandlerResult.ok r, ⟨some r, some now⟩, attempts⟩

/-! ### `updatedIso` -/

def pad2 (n : Int) : String :=
  if 0 ≤ n ∧ n < 10 then "0" ++ toString n else toString n

/-- `timestamp.toISOString()` for in-range integral `Date.UTC` arguments
(the only ones the claims exercise; `Date.UTC` carry normalisation of
out-of-range components is not modelled). -/
def updatedIso (r : Report) : String :=
  toString r.year.floor ++ "-" ++ pad2 (r.month0.floor + 1) ++ "-" ++
    pad2 r.day.floor ++ "T" ++ pad2 r.hour.floor ++ ":" ++
    pad2 r.minute.floor ++ ":00.000Z"

-- Propositional equality on fetch/parse outcomes is decidable (used to
-- evaluate the pipeline on concrete feeds).
deriving instance DecidableEq for Except

/-! ### Derived characterisations used by the claims -/

/-- The header-recognition test of one line of the scan, as a function:
`some tokens` iff the line is a comment line whose stripped tokens include
`YY`, `MM` and `DD`. -/
def matchedHeader (line : String) : Option (List String) :=
  if startsWithHash line then
    let tokens := tokensOf (stripHeaderMarker line)
    if tokens.contains "YY" && tokens.contains "MM" && tokens.contains "DD" then
      some tokens
    else none
  else none

/-- The value one alias contributes in the alias loops: present, in bounds
and parsed, else `none`. -/
def aliasVal (header latest : List String) (f : String) : Option Rat :=
  match idxLookup header f with
  | some i => if i < latest.length then parseNum latest[i]? else none
  | none => none

/-! ### Concrete inputs exercised by the claims -/

def ndbcUrl1 : String := "https://www.ndbc.noaa.gov/data/realtime2/LJPC1.txt"

/-- The spec's concrete scenario feed (the header line carries the comment
marker the Feed Parser requires). -/
def c1Feed : String :=
  "#YY MM DD hh mm WD WSPD GST WVHT DPD APD WTMP\n24 03 15 18 00 270 5.1 6.3 1.20 11 9 999.0\n"

/-- The record the pipeline builds from `c1Feed` when fetched from `url`:
`windKts = 5.1 * 1.94384 = 9.913584 = 619599/62500`,
`waveHeightFt = 1.2 * 3.28084 = 3.937008 = 246063/62500`,
`windGustKts = 6.3 * 1.94384 = 12.246192 = 765387/62500`; the `APD` token
`"9"` matches the all-nines sentinel and the `WTMP` token `"999.0"` is
missing, so both extract as unknown. -/
def c1ReportAt (url : String) : Report :=
  { stationId := "LJPC1"
    name := "Scripps Pier, La Jolla, CA"
    sourceUrl := url
    year := 2024
    month0 := 2
    day := 15
    hour := 18
    minute := 0
    windDirDeg := some 270
    windKts := some (619599 / 62500)
    windGustKts := some (765387 / 62500)
    waveHeightM := some (6 / 5)
    waveHeightFt := some (246063 / 62500)
    dominantPeriodSec := some 11
    averagePeriodSec := none
    swellDirDeg := none
    barometricPressureHpa := none
    waterTempC := none
    waterTempF := none }

/-- A feed whose year token resolves to the number `0`. -/
def c3Feed : String := "#YY MM DD hh mm\n00 03 15 18 00\n"

/-- A feed with two recognised header lines whose column orders differ. -/
def c4Feed : String :=
  "#YY MM DD hh mm WVHT\n24 03 15 18 00 2.0\n#WVHT YY MM DD hh mm\n"

def c8Header : List String := ["YY", "MM", "DD", "hh", "mm", "MWD", "MWWD"]
def c8Row : List String := ["24", "03", "15", "18", "00", "MM", "270"]

/-- A feed where the first swell-direction alias (`MWD`) is present but its
token is the reserved missing marker, while the second alias (`MWWD`)
carries a value. -/
def c8Feed : String := "#YY MM DD hh mm MWD MWWD\n24 03 15 18 00 MM 270\n"

/-- A feed whose wave height (61 m = 200.13124 ft) is far outside the
plausible `[0, 50]` ft range. -/
def c9Feed : String := "#YY MM DD hh mm WVHT\n24 03 15 18 00 61.0\n"

def c9ReportAt (url : String) : Report :=
  { stationId := "LJPC1"
    name := "Scripps Pier, La Jolla, CA"
    sourceUrl := url
    year := 2024
    month0 := 2
    day := 15
    hour := 18
    minute := 0
    windDirDeg := none
    windKts := none
    windGustKts := none
    waveHeightM := some 61
    waveHeightFt := some (5003281 / 25000)
    dominantPeriodSec := none
    averagePeriodSec := none
    swellDirDeg := none
    barometricPressureHpa := none
    waterTempC := none
    waterTempF := none }

/-- A network where every candidate answers with a non-success status. -/
def failNet : String → Except String String :=
  fun _ => Except.error "500 Internal Server Error"

/-- A network where every candidate serves the scenario feed. -/
def goodNet : String → Except String String := fun _ => Except.ok c1Feed

def c9Net : String → Except String String := fun _ => Except.ok c9Feed

/-- A network where the first candidate times out and the rest serve the
scenario feed. -/
def c5Net : String → Except String String :=
  fun url =>
    if url = ndbcUrl1 then Except.error "Request timeout after 10000ms"
    else Except.ok c1Feed

/-- Header/row pair where the canonical water-temperature column `WTMP` is
absent but the alternate alias `WT` is present. -/
def aliasWitnessHeader : List String := ["YY", "MM", "DD", "hh", "mm", "WT"]
def aliasWitnessRow : List String := ["24", "03", "15", "18", "00", "15.5"]

/-- The record built from `aliasWitnessHeader`/`aliasWitnessRow`: the water
temperature comes from the alternate `WT` column (15.5 °C = 59.9 °F). -/
def c8wReport : Report :=
  { stationId := "LJPC1"
    name := "Scripps Pier, La Jolla, CA"
    sourceUrl := "u"
    year := 2024
    month0 := 2
    day := 15
    hour := 18
    minute := 0
    windDirDeg := none
    windKts := none
    windGustKts := none
    waveHeightM := none
    waveHeightFt := none
    dominantPeriodSec := none
    averagePeriodSec := none
    swellDirDeg := none
    barometricPressureHpa := none
    waterTempC := some (31 / 2)
    waterTempF := some (599 / 10) }

/-- Header/row pair whose optional columns hold unparsable garbage. -/
def garbageHeader : List String :=
  ["YY", "MM", "DD", "hh", "mm", "WD", "WVHT", "WTMP", "MWD", "DPD"]
def garbageRow : List String :=
  ["24", "03", "15", "18", "00", "north", "x+y", "??", "--", "!!"]

/-! ### Helper lemmas -/

theorem buildReport_eq (station url : String) (header latest : List String) :
    buildReport station url header latest =
      if jsFalsy (yearOf header latest) || jsFalsy (monthOf header latest) ||
          jsFalsy (dayOf header latest) || (hourOf header latest).isNone then
        Except.error (PipeError.missingTimestamp url)
      else
        Except.ok (builtRecord station url header latest) :=
  rfl

theorem buildReport_ok_sourceUrl (station url : String) (header latest : List String)
    (r : Report) (h : buildReport station url header latest = Except.ok r) :
    r.sourceUrl = url := by
  rw [buildReport_eq] at h
  split at h
  · exact absurd h (by simp)
  · injection h with h'
    rw [← h']
    rfl

theorem parsePipeline_ok_sourceUrl (station url text : String) (r : Report)
    (h : parsePipeline station url text = Except.ok r) : r.sourceUrl = url := by
  unfold parsePipeline at h
  rcases hs : scanFeed (linesOf text) with ⟨ht, rows⟩
  rw [hs] at h
  rcases ht with _ | header <;> rcases rows with _ | ⟨latest, rest⟩
  · exact absurd h (by simp)
  · exact absurd h (by simp)
  · exact absurd h (by simp)
  · exact buildReport_ok_sourceUrl station url header latest r h

theorem fetchLoop_allFail (net : String → Except String String) (f : String → String) :
    ∀ urls : List String, (∀ v ∈ urls, net v = Except.error (f v)) →
      fetchLoop net urls = (urls, urls.map (fun v => v ++ " -> " ++ f v), none) := by
  intro urls
  induction urls with
  | nil => intro _; rfl
  | cons url rest ih =>
    intro h
    have hu : net url = Except.error (f url) := h url (by simp)
    have ih' := ih (fun v hv => h v (by simp [hv]))
    simp [fetchLoop, hu, ih']

theorem fetchLoop_firstSuccess (net : String → Except String String) (f : String → String)
    (u t : String) (post : List String) (hu : net u = Except.ok t) :
    ∀ pre : List String, (∀ v ∈ pre, net v = Except.error (f v)) →
      fetchLoop net (pre ++ u :: post) =
        (pre ++ [u], pre.map (fun v => v ++ " -> " ++ f v), some (t, u)) := by
  intro pre
  induction pre with
  | nil => intro _; simp [fetchLoop, hu]
  | cons v vs ih =>
    intro h
    have hv : net v = Except.error (f v) := h v (by simp)
    have ih' := ih (fun w hw => h w (by simp [hw]))
    simp [fetchLoop, hv, ih']

theorem fetchLoop_ok_decomp (net : String → Except String String) :
    ∀ (urls att errs : List String) (t u : String),
      fetchLoop net urls = (att, errs, some (t, u)) →
      ∃ pre post, urls = pre ++ u :: post ∧ (∀ v ∈ pre, ∃ e, net v = Except.error e) ∧
        net u = Except.ok t ∧ att = pre ++ [u] := by
  intro urls
  induction urls with
  | nil =>
    intro att errs t u h
    exact absurd h (by simp [fetchLoop])
  | cons url rest ih =>
    intro att errs t u h
    rw [fetchLoop] at h
    cases hn : net url with
    | error e =>
      rw [hn] at h
      rcases hfl : fetchLoop net rest with ⟨att', errs', r'⟩
      rw [hfl] at h
      simp only [Prod.mk.injEq] at h
      obtain ⟨h1, -, h3⟩ := h
      obtain ⟨pre, post, hurls, hpre, huok, hatt⟩ :=
        ih att' errs' t u (by rw [hfl, h3])
      refine ⟨url :: pre, post, by simp [hurls], ?_, huok, by simp [← h1, hatt]⟩
      intro v hv
      rcases List.mem_cons.mp hv with hveq | hvm
      · exact ⟨e, hveq ▸ hn⟩
      · exact hpre v hvm
    | ok t' =>
      rw [hn] at h
      simp only [Prod.mk.injEq, Option.some.injEq] at h
      obtain ⟨h1, -, h3, h4⟩ := h
      subst h3
      subst h4
      exact ⟨[], rest, by simp, by simp, hn, by simp [← h1]⟩

theorem runPipeline_err_cache (station : String) (now : Int)
    (net : String → Except String String) (c : CacheState) (e : PipeError)
    (h : (runPipeline station now net c).result = HandlerResult.err e) :
    (runPipeline station now net c).cache = c := by
  unfold runPipeline at h ⊢
  rcases hfl : fetchLoop net (candidateUrls station) with ⟨att, errs, fopt⟩
  rw [hfl] at h
  rcases fopt with _ | ⟨text, url⟩
  · rfl
  · dsimp only at h ⊢
    cases hp : parsePipeline station url text with
    | error e' => rfl
    | ok r =>
      rw [hp] at h
      dsimp only at h
      exact absurd h (by simp)

theorem runPipeline_ok_cache (station : String) (now : Int)
    (net : String → Except String String) (c : CacheState) (r : Report)
    (h : (runPipeline station now net c).result = HandlerResult.ok r) :
    (runPipeline station now net c).cache = ⟨some r, some now⟩ := by
  unfold runPipeline at h ⊢
  rcases hfl : fetchLoop net (candidateUrls station) with ⟨att, errs, fopt⟩
  rw [hfl] at h
  rcases fopt with _ | ⟨text, url⟩
  · simp at h
  · dsimp only at h ⊢
    cases hp : parsePipeline station url text with
    | error e' =>
      rw [hp] at h
      dsimp only at h
      exact absurd h (by simp)
    | ok r' =>
      rw [hp] at h
      dsimp only at h
      simp only [HandlerResult.ok.injEq] at h
      rw [h]

theorem handler_err_cache (station : String) (now : Int)
    (net : String → Except String String) (c : CacheState) (e : PipeError)
    (h : (handler station now net c).result = HandlerResult.err e) :
    (handler station now net c).cache = c := by
  unfold handler at h ⊢
  rcases c with ⟨cd, ct⟩
  rcases cd with _ | d
  · exact runPipeline_err_cache _ _ _ _ _ h
  · rcases ct with _ | t
    · exact runPipeline_err_cache _ _ _ _ _ h
    · dsimp only at h ⊢
      by_cases hc : t ≠ 0 ∧ now - t < CACHE_TTL
      · rw [if_pos hc] at h
        exact absurd h (by simp)
      · rw [if_neg hc] at h ⊢
        exact runPipeline_err_cache _ _ _ _ _ h

theorem handler_ok_cache (station : String) (now : Int)
    (net : String → Except String String) (c : CacheState) (r : Report)
    (h : (handler station now net c).result = HandlerResult.ok r) :
    (handler station now net c).cache = ⟨some r, some now⟩ := by
  unfold handler at h ⊢
  rcases c with ⟨cd, ct⟩
  rcases cd with _ | d
  · exact runPipeline_ok_cache _ _ _ _ _ h
  · rcases ct with _ | t
    · exact runPipeline_ok_cache _ _ _ _ _ h
    · dsimp only at h ⊢
      by_cases hc : t ≠ 0 ∧ now - t < CACHE_TTL
      · rw [if_pos hc] at h
        exact absurd h (by simp)
      · rw [if_neg hc] at h ⊢
        exact runPipeline_ok_cache _ _ _ _ _ h

theorem scanLine_headerTokens (st : ScanState) (line : String) :
    (scanLine st line).headerTokens =
      match matchedHeader line with
      | some t => some t
      | none => st.headerTokens := by
  rcases st with ⟨ht, rows⟩
  unfold scanLine matchedHeader
  by_cases h1 : startsWithHash line
  · simp only [if_pos h1]
    split_ifs with h2 <;> rfl
  · simp only [if_neg h1]
    rcases ht with _ | hdr
    · rfl
    · dsimp only
      by_cases h3 : (tokensOf line).length < hdr.length
      · simp [h3]
      · simp [h3]

/-- The last recognised header among a list of lines, with a default for
when there is none. -/
def lastHeaderIn (lines : List String) (d : Option (List String)) :
    Option (List String) :=
  match (lines.filterMap matchedHeader).getLast? with
  | some t => some t
  | none => d

theorem scanFeed_headerTokens_aux :
    ∀ (lines : List String) (st : ScanState),
      (lines.foldl scanLine st).headerTokens = lastHeaderIn lines st.headerTokens := by
  intro lines
  induction lines with
  | nil => intro st; rfl
  | cons l ls ih =>
    intro st
    rw [List.foldl_cons, ih]
    unfold lastHeaderIn
    rw [scanLine_headerTokens]
    cases hm : matchedHeader l with
    | none => rw [List.filterMap_cons_none hm]
    | some t =>
      rw [List.filterMap_cons_some hm]
      cases hls : ls.filterMap matchedHeader with
      | nil => simp
      | cons a as =>
        have hsome : (a :: as).getLast?.isSome := by
          rw [List.getLast?_isSome]
          simp
        rcases hx : (a :: as).getLast? with _ | x
        · rw [hx] at hsome
          exact absurd hsome (by simp)
        · simp [List.getLast?_cons_cons, hx]

/-- The header used for column indexing is the last recognised comment
line. -/
theorem scanFeed_headerTokens (lines : List String) :
    (scanFeed lines).headerTokens = (lines.filterMap matchedHeader).getLast? := by
  rw [scanFeed, scanFeed_headerTokens_aux]
  unfold lastHeaderIn
  cases h : (lines.filterMap matchedHeader).getLast? <;> simp

theorem firstParsedAlias_eq (header latest : List String) :
    ∀ ns : List String,
      firstParsedAlias header latest ns = (ns.filterMap (aliasVal header latest)).head? := by
  intro ns
  induction ns with
  | nil => rfl
  | cons f rest ih =>
    cases hi : idxLookup header f with
    | none =>
      rw [List.filterMap_cons_none (show aliasVal header latest f = none by simp [aliasVal, hi])]
      rw [← ih]
      simp [firstParsedAlias, hi]
    | some i =>
      by_cases hb : i < latest.length
      · cases hp : parseNum latest[i]? with
        | none =>
          have hp' : parseNum (some latest[i]) = none := by
            rw [← List.getElem?_eq_getElem hb]
            exact hp
          rw [List.filterMap_cons_none (show aliasVal header latest f = none by
            simp [aliasVal, hi, hb, hp'])]
          rw [← ih]
          simp [firstParsedAlias, hi, hb, hp']
        | some v =>
          have hp' : parseNum (some latest[i]) = some v := by
            rw [← List.getElem?_eq_getElem hb]
            exact hp
          rw [List.filterMap_cons_some (show aliasVal header latest f = some v by
            simp [aliasVal, hi, hb, hp'])]
          simp [firstParsedAlias, hi, hb, hp']
      · rw [List.filterMap_cons_none (show aliasVal header latest f = none by simp [aliasVal, hi, hb])]
        rw [← ih]
        simp [firstParsedAlias, hi, hb]

theorem tokenTernary_eq (header latest : List String) :
    ∀ ns : List String,
      tokenTernary header latest ns =
        ((ns.filterMap (idxLookup header)).head?).bind (fun i => latest[i]?) := by
  intro ns
  induction ns with
  | nil => rfl
  | cons n rest ih =>
    cases hi : idxLookup header n with
    | none =>
      rw [List.filterMap_cons_none hi]
      rw [← ih]
      simp [tokenTernary, hi]
    | some i =>
      rw [List.filterMap_cons_some hi]
      simp [tokenTernary, hi]

theorem parseNum_of_nines (s : String) (h : isNinesToken (trimStr s) = true) :
    parseNum (some s) = none := by
  have n1 : trimStr s ≠ "" := by
    intro h1
    rw [h1] at h
    exact absurd h (by decide)
  have n2 : trimStr s ≠ "MM" := by
    intro h1
    rw [h1] at h
    exact absurd h (by decide)
  have n3 : trimStr s ≠ "NaN" := by
    intro h1
    rw [h1] at h
    exact absurd h (by decide)
  have n4 : trimStr s ≠ "N/A" := by
    intro h1
    rw [h1] at h
    exact absurd h (by decide)
  have e : (trimStr s == "" || trimStr s == "MM" || trimStr s == "NaN" ||
      trimStr s == "N/A") = false := by
    simp only [Bool.or_eq_false_iff, beq_eq_false_iff_ne, ne_eq]
    exact ⟨⟨⟨n1, n2⟩, n3⟩, n4⟩
  simp [parseNum, e, h]

theorem parseNum_of_jsNumber (s : String) (q : Rat)
    (h1 : isNinesToken (trimStr s) = false) (h2 : jsNumber (trimStr s) = some q) :
    parseNum (some s) = some q := by
  have n1 : trimStr s ≠ "" := by
    intro hr
    rw [hr, show jsNumber "" = none from by decide] at h2
    exact Option.noConfusion h2
  have n2 : trimStr s ≠ "MM" := by
    intro hr
    rw [hr, show jsNumber "MM" = none from by decide] at h2
    exact Option.noConfusion h2
  have n3 : trimStr s ≠ "NaN" := by
    intro hr
    rw [hr, show jsNumber "NaN" = none from by decide] at h2
    exact Option.noConfusion h2
  have n4 : trimStr s ≠ "N/A" := by
    intro hr
    rw [hr, show jsNumber "N/A" = none from by decide] at h2
    exact Option.noConfusion h2
  have e : (trimStr s == "" || trimStr s == "MM" || trimStr s == "NaN" ||
      trimStr s == "N/A") = false := by
    simp only [Bool.or_eq_false_iff, beq_eq_false_iff_ne, ne_eq]
    exact ⟨⟨⟨n1, n2⟩, n3⟩, n4⟩
  simp [parseNum, e, h1, h2]

theorem parseNum_of_unparsable (s : String) (h : jsNumber (trimStr s) = none) :
    parseNum (some s) = none := by
  unfold parseNum
  dsimp only
  split_ifs with h1 h2
  · rfl
  · rfl
  · simp [h]

/-- The `validateData` call's returned warnings are dead: removing the call
leaves the handler's output unchanged. -/
theorem runPipeline_eq_noValidate (station : String) (now : Int)
    (net : String → Except String String) (c : CacheState) :
    runPipeline station now net c = runPipelineNoValidate station now net c := by
  unfold runPipeline runPipelineNoValidate
  rfl

/-! ### Claims -/

unseal Rat.mul Rat.add Rat.inv Rat.sub in
/-- Claim C1 (counterexample): for the scenario feed, the pipeline's
`windKts` is exactly `5.1 * 1.94384 = 9.913584 = 619599/62500`, which is not
within any floating-point tolerance of the claimed `9.917` — the gap is
`0.003416`, more than `1/1000`. -/
theorem C1_counterexample :
    (parsePipeline "LJPC1" "u" c1Feed).toOption.map Report.windKts =
      some (some (619599 / 62500)) ∧
    ¬ |(619599 / 62500 : Rat) - 9917 / 1000| < 1 / 1000 := by
  exact ⟨by decide, by decide⟩

unseal Rat.mul Rat.add Rat.inv Rat.sub in
/-- Claim C1 (amended): for the scenario feed the pipeline produces the
record with timestamp 2024-03-15T18:00:00Z, `windDirDeg = 270`,
`windKts = 9.913584` (≈ 9.9136, not the claimed 9.917),
`waveHeightFt = 3.937008` (≈ 3.937 within `1/100000`),
`dominantPeriodSec = 11`, and `waterTempF` unknown. -/
theorem C1_claim :
    parsePipeline "LJPC1" "u" c1Feed = Except.ok (c1ReportAt "u") ∧
    updatedIso (c1ReportAt "u") = "2024-03-15T18:00:00.000Z" ∧
    (c1ReportAt "u").windDirDeg = some 270 ∧
    (c1ReportAt "u").windKts = some (619599 / 62500) ∧
    |(619599 / 62500 : Rat) - 99136 / 10000| < 1 / 10000 ∧
    (c1ReportAt "u").waveHeightFt = some (246063 / 62500) ∧
    |(246063 / 62500 : Rat) - 3937 / 1000| < 1 / 100000 ∧
    (c1ReportAt "u").dominantPeriodSec = some 11 ∧
    (c1ReportAt "u").waterTempF = none := by
  refine ⟨by decide, by decide, by decide, by decide, by decide, by decide, by decide,
    by decide, by decide⟩

unseal Rat.mul Rat.add Rat.inv Rat.sub in
/-- Claim C2: the all-nines sentinel (one or more `9`s with an optional
`.0…0` fraction) and the reserved marker extract as unknown, independent of
magnitude; every other token whose `Number` conversion is a finite value
extracts as exactly that value, zero included; `"9.5"` is not a sentinel and
extracts as `9.5`. -/
theorem C2_claim :
    (∀ s : String, isNinesToken (trimStr s) = true → parseNum (some s) = none) ∧
    parseNum (some "MM") = none ∧
    (∀ (s : String) (q : Rat), isNinesToken (trimStr s) = false →
      jsNumber (trimStr s) = some q → parseNum (some s) = some q) ∧
    parseNum (some "9.5") = some (19 / 2) ∧
    parseNum (some "0") = some 0 ∧
    isNinesToken "99" = true ∧ isNinesToken "999.0" = true ∧
    isNinesToken "9999" = true ∧ isNinesToken "9.5" = false := by
  exact ⟨parseNum_of_nines, by decide, parseNum_of_jsNumber, by decide, by decide,
    by decide, by decide, by decide, by decide⟩

unseal Rat.mul Rat.add Rat.inv Rat.sub in
/-- Claim C2 (witness): concrete instances of the sentinel rule and the
value rule. -/
theorem C2_witness :
    parseNum (some "999") = none ∧ parseNum (some "42.5") = some (85 / 2) :=
  ⟨C2_claim.1 "999" (by decide),
   C2_claim.2.2.1 "42.5" (85 / 2) (by decide) (by decide)⟩

unseal Rat.mul Rat.add Rat.inv Rat.sub in
/-- Claim C3 (counterexample): in `c3Feed` every one of year, month, day,
hour resolves to a number (`year = 0`), yet the run raises
`MissingTimestamp`, because the source's guard `!year || !month || !day`
treats a zero year/month/day as missing. -/
theorem C3_counterexample :
    parsePipeline "LJPC1" "u" c3Feed = Except.error (PipeError.missingTimestamp "u") ∧
    parseNum (some "00") = some 0 ∧ parseNum (some "03") = some 3 ∧
    parseNum (some "15") = some 15 ∧ parseNum (some "18") = some 18 := by
  exact ⟨by decide, by decide, by decide, by decide, by decide⟩

/-- Claim C3 (amended): the run fails with `MissingTimestamp` exactly when
year, month or day is unresolved **or zero** (JS falsiness), or hour is
unresolved (hour alone is null-checked, so a zero hour passes); otherwise
it builds the UTC timestamp from the resolved components (two-digit years
shifted by 2000, month made zero-based, minute defaulting to zero). -/
theorem C3_claim (station url : String) (header latest : List String) :
    (buildReport station url header latest =
        Except.error (PipeError.missingTimestamp url) ↔
      (jsFalsy (yearOf header latest) = true ∨ jsFalsy (monthOf header latest) = true ∨
        jsFalsy (dayOf header latest) = true ∨ (hourOf header latest).isNone = true)) ∧
    (jsFalsy (yearOf header latest) = false → jsFalsy (monthOf header latest) = false →
      jsFalsy (dayOf header latest) = false → (hourOf header latest).isNone = false →
      ∃ r, buildReport station url header latest = Except.ok r ∧
        r.year = (if (yearOf header latest).getD 0 < 100 then
            2000 + (yearOf header latest).getD 0 else (yearOf header latest).getD 0) ∧
        r.month0 = (monthOf header latest).getD 0 - 1 ∧
        r.day = (dayOf header latest).getD 0 ∧
        r.hour = (hourOf header latest).getD 0 ∧
        r.minute = (minsOf header latest).getD 0) := by
  constructor
  · rw [buildReport_eq]
    cases hb : (jsFalsy (yearOf header latest) || jsFalsy (monthOf header latest) ||
        jsFalsy (dayOf header latest) || (hourOf header latest).isNone) with
    | true =>
      rw [if_pos rfl]
      simp only [Bool.or_eq_true] at hb
      exact ⟨fun _ => by tauto, fun _ => rfl⟩
    | false =>
      simp only [Bool.or_eq_false_iff] at hb
      obtain ⟨⟨⟨h1, h2⟩, h3⟩, h4⟩ := hb
      simp [h1, h2, h3, h4]
  · intro h1 h2 h3 h4
    have hb : (jsFalsy (yearOf header latest) || jsFalsy (monthOf header latest) ||
        jsFalsy (dayOf header latest) || (hourOf header latest).isNone) = false := by
      rw [h1, h2, h3, h4]
      rfl
    exact ⟨builtRecord station url header latest,
      by rw [buildReport_eq, hb]; rfl, rfl, rfl, rfl, rfl, rfl⟩

unseal Rat.mul Rat.add Rat.inv Rat.sub in
/-- Claim C3 (witness): the amended failure condition applied to the
concrete zero-year row. -/
theorem C3_witness :
    buildReport "LJPC1" "u" ["YY", "MM", "DD", "hh", "mm"]
      ["00", "03", "15", "18", "00"] =
      Except.error (PipeError.missingTimestamp "u") := by
  exact (C3_claim "LJPC1" "u" ["YY", "MM", "DD", "hh", "mm"]
    ["00", "03", "15", "18", "00"]).1.mpr (Or.inl (by decide))

unseal Rat.mul Rat.add Rat.inv Rat.sub in
/-- Claim C4 (counterexample): `c4Feed` contains two recognised header
lines; the scan keeps the **second** one, so the `WVHT` field is read at
position 0 (token `"24"`), not at the position the first header gives
(token `"2.0"`). -/
theorem C4_counterexample :
    (scanFeed (linesOf c4Feed)).headerTokens =
      some ["WVHT", "YY", "MM", "DD", "hh", "mm"] ∧
    matchedHeader "#YY MM DD hh mm WVHT" = some ["YY", "MM", "DD", "hh", "mm", "WVHT"] ∧
    (linesOf c4Feed).filterMap matchedHeader =
      [["YY", "MM", "DD", "hh", "mm", "WVHT"], ["WVHT", "YY", "MM", "DD", "hh", "mm"]] ∧
    (parsePipeline "LJPC1" "u" c4Feed).toOption.map Report.waveHeightM =
      some (some 24) ∧
    parseNum (some "2.0") = some 2 := by
  exact ⟨by decide, by decide, by decide, by decide, by decide⟩

/-- Claim C4 (amended): the HeaderRow used for column indexing is the
**last** comment line whose tokens include all required date-component
column names — each recognised comment line overwrites the previous one. -/
theorem C4_claim :
    ∀ lines : List String,
      (scanFeed lines).headerTokens = (lines.filterMap matchedHeader).getLast? :=
  scanFeed_headerTokens

/-- Claim C5: candidates are tried strictly in order; each failing candidate
contributes exactly one attempt and one recorded error; the first success
stops the loop; if all fail the run signals `UpstreamUnavailable` with the
failures in candidate order; a successful run's record carries the source
URL of the first successful candidate. -/
theorem C5_claim (net : String → Except String String) (f : String → String) :
    (∀ urls : List String, (∀ v ∈ urls, net v = Except.error (f v)) →
      fetchLoop net urls = (urls, urls.map (fun v => v ++ " -> " ++ f v), none)) ∧
    (∀ (pre : List String) (u t : String) (post : List String),
      (∀ v ∈ pre, net v = Except.error (f v)) → net u = Except.ok t →
      fetchLoop net (pre ++ u :: post) =
        (pre ++ [u], pre.map (fun v => v ++ " -> " ++ f v), some (t, u))) ∧
    (∀ (station : String) (now : Int) (c : CacheState),
      (∀ v ∈ candidateUrls station, net v = Except.error (f v)) →
      runPipeline station now net c =
        ⟨HandlerResult.err (PipeError.upstreamUnavailable
            ((candidateUrls station).map (fun v => v ++ " -> " ++ f v))), c,
          candidateUrls station⟩) ∧
    (∀ (station : String) (now : Int) (c : CacheState) (r : Report),
      (runPipeline station now net c).result = HandlerResult.ok r →
      ∃ pre u post t, candidateUrls station = pre ++ u :: post ∧
        (∀ v ∈ pre, ∃ e, net v = Except.error e) ∧ net u = Except.ok t ∧
        r.sourceUrl = u ∧ (runPipeline station now net c).attempts = pre ++ [u]) := by
  refine ⟨fetchLoop_allFail net f,
    fun pre u t post h hu => fetchLoop_firstSuccess net f u t post hu pre h, ?_, ?_⟩
  · intro station now c h
    unfold runPipeline
    rw [fetchLoop_allFail net f _ h]
  · intro station now c r h
    unfold runPipeline at h ⊢
    rcases hfl : fetchLoop net (candidateUrls station) with ⟨att, errs, fopt⟩
    rw [hfl] at h
    rcases fopt with _ | ⟨text, url⟩
    · simp at h
    · dsimp only at h ⊢
      cases hp : parsePipeline station url text with
      | error e' =>
        try rw [hp] at h
        simp at h
      | ok r' =>
        try rw [hp] at h
        try rw [hp]
        dsimp only at h ⊢
        simp only [HandlerResult.ok.injEq] at h
        obtain ⟨pre, post, hurls, hpre, huok, hatt⟩ :=
          fetchLoop_ok_decomp net (candidateUrls station) att errs text url hfl
        refine ⟨pre, url, post, text, hurls, hpre, huok, ?_, hatt⟩
        rw [← h]
        exact parsePipeline_ok_sourceUrl station url text r' hp

/-- Claim C5 (witness): with the first candidate timing out and the second
serving the feed, exactly one attempt and one recorded error are made
against the first, and the success carries the second URL. -/
theorem C5_witness :
    fetchLoop c5Net (candidateUrls "LJPC1") =
      ([ndbcUrl1, "https://www.ndbc.noaa.gov/data/5day/LJPC1_5day.txt"],
        [ndbcUrl1 ++ " -> Request timeout after 10000ms"],
        some (c1Feed, "https://www.ndbc.noaa.gov/data/5day/LJPC1_5day.txt")) := by
  have h := (C5_claim c5Net (fun _ => "Request timeout after 10000ms")).2.1
    [ndbcUrl1] "https://www.ndbc.noaa.gov/data/5day/LJPC1_5day.txt" c1Feed
    ["https://www.ndbc.noaa.gov/data/realtime2/ljpc1.txt",
      "https://www.ndbc.noaa.gov/data/5day/ljpc1_5day.txt"]
    (by
      intro v hv
      simp only [List.mem_singleton] at hv
      subst hv
      rfl)
    (by decide)
  exact h

unseal Rat.mul Rat.add Rat.inv Rat.sub in
/-- Claim C6: a failing run never writes the cache; concretely, when all
four candidates answer with a non-success status, the result is
`UpstreamUnavailable` with the four recorded failures and a prior (stale)
cache entry is left untouched. -/
theorem C6_claim :
    (∀ (station : String) (now : Int) (net : String → Except String String)
        (c : CacheState) (e : PipeError),
      (handler station now net c).result = HandlerResult.err e →
      (handler station now net c).cache = c) ∧
    (candidateUrls "LJPC1").length = 4 ∧
    handler "LJPC1" 10000000 failNet ⟨some (c1ReportAt "u"), some 1⟩ =
      ⟨HandlerResult.err (PipeError.upstreamUnavailable
          ((candidateUrls "LJPC1").map (fun u => u ++ " -> 500 Internal Server Error"))),
        ⟨some (c1ReportAt "u"), some 1⟩, candidateUrls "LJPC1"⟩ := by
  exact ⟨handler_err_cache, by decide, by decide⟩

unseal Rat.mul Rat.add Rat.inv Rat.sub in
/-- Claim C6 (witness): the no-write property applied to the all-fail run
over a stale cache. -/
theorem C6_witness :
    (handler "LJPC1" 10000000 failNet ⟨some (c1ReportAt "u"), some 1⟩).cache =
      ⟨some (c1ReportAt "u"), some 1⟩ :=
  C6_claim.1 "LJPC1" 10000000 failNet ⟨some (c1ReportAt "u"), some 1⟩
    (PipeError.upstreamUnavailable
      ((candidateUrls "LJPC1").map (fun u => u ++ " -> 500 Internal Server Error")))
    (by decide)

/-- Claim C7: after a fresh successful run at `now1` (a positive clock, as
epoch-millisecond clocks are), any second run within the TTL serves the
cached record, performs no fetch, leaves the cache unchanged, and its served
record is byte-identical to the first run's; and in general a cache read
returns the stored entry whenever its age is below the TTL. -/
theorem C7_claim (station : String) (net : String → Except String String)
    (now1 now2 : Int) (c : CacheState) (r : Report)
    (h0 : 0 < now1) (httl : now2 - now1 < CACHE_TTL)
    (h : (handler station now1 net c).result = HandlerResult.ok r) :
    (handler station now2 net (handler station now1 net c).cache =
        ⟨HandlerResult.cached r, ⟨some r, some now1⟩, []⟩ ∧
      servedReport
          (handler station now2 net (handler station now1 net c).cache).result =
        servedReport (handler station now1 net c).result) ∧
    ∀ (d : Report) (t : Int), t ≠ 0 → now2 - t < CACHE_TTL →
      handler station now2 net ⟨some d, some t⟩ =
        ⟨HandlerResult.cached d, ⟨some d, some t⟩, []⟩ := by
  have hread : ∀ (d : Report) (t : Int), t ≠ 0 → now2 - t < CACHE_TTL →
      handler station now2 net ⟨some d, some t⟩ =
        ⟨HandlerResult.cached d, ⟨some d, some t⟩, []⟩ := by
    intro d t ht httl2
    unfold handler
    dsimp only
    rw [if_pos ⟨ht, httl2⟩]
  have hcache := handler_ok_cache station now1 net c r h
  refine ⟨⟨?_, ?_⟩, hread⟩
  · rw [hcache]
    exact hread r now1 (by omega) httl
  · rw [hcache, hread r now1 (by omega) httl, h]
    rfl

unseal Rat.mul Rat.add Rat.inv Rat.sub in
/-- Claim C7 (witness): two concrete runs one minute apart over the
scenario feed — the second is a cache hit with no fetch. -/
theorem C7_witness :
    handler "LJPC1" 61000 goodNet (handler "LJPC1" 1000 goodNet ⟨none, none⟩).cache =
      ⟨HandlerResult.cached (c1ReportAt ndbcUrl1),
        ⟨some (c1ReportAt ndbcUrl1), some 1000⟩, []⟩ :=
  ((C7_claim "LJPC1" goodNet 1000 61000 ⟨none, none⟩ (c1ReportAt ndbcUrl1)
    (by decide) (by decide) (by decide)).1).1

unseal Rat.mul Rat.add Rat.inv Rat.sub in
/-- Claim C8 (counterexample): in `c8Feed` the first swell-direction alias
`MWD` is present (position 5) but its token is the reserved marker `"MM"`,
which extracts as unknown; the pipeline nevertheless resolves the field to
`270` from the later alias `MWWD`, so the token read is not the one at the
first present alias. -/
theorem C8_counterexample :
    (parsePipeline "LJPC1" "u" c8Feed).toOption.map Report.swellDirDeg =
      some (some 270) ∧
    idxLookup c8Header "MWD" = some 5 ∧ c8Row[5]? = some "MM" ∧
    parseNum (some "MM") = none ∧
    (scanFeed (linesOf c8Feed)).headerTokens = some c8Header ∧
    (scanFeed (linesOf c8Feed)).dataRows = [c8Row] := by
  exact ⟨by decide, by decide, by decide, by decide, by decide, by decide⟩

/-- Claim C8 (amended): ternary-resolved fields (pressure, year, hour) read
the token at the **first alias present** in the index; loop-resolved fields
(swell direction, air and water temperature) resolve to the first alias in
order **whose token parses to a number**, skipping aliases that are present
but hold a missing or unparsable token; in either case, when the canonical
name is absent but an alternate is present, the field resolves from the
alternate column. -/
theorem C8_claim (header latest : List String) :
    (∀ ns : List String, firstParsedAlias header latest ns =
      (ns.filterMap (aliasVal header latest)).head?) ∧
    (∀ ns : List String, tokenTernary header latest ns =
      ((ns.filterMap (idxLookup header)).head?).bind (fun i => latest[i]?)) ∧
    (∀ (station url : String) (r : Report),
      buildReport station url header latest = Except.ok r →
      r.swellDirDeg = firstParsedAlias header latest swellDirFields ∧
      r.waterTempC = firstParsedAlias header latest waterTempFields ∧
      r.waterTempF = cToF (firstParsedAlias header latest waterTempFields) ∧
      r.barometricPressureHpa = parseNum (tokenTernary header latest ["BARO", "PRES"])) := by
  refine ⟨firstParsedAlias_eq header latest, tokenTernary_eq header latest, ?_⟩
  intro station url r h
  rw [buildReport_eq] at h
  split at h
  · exact absurd h (by simp)
  · injection h with h'
    rw [← h']
    exact ⟨rfl, rfl, rfl, rfl⟩

unseal Rat.mul Rat.add Rat.inv Rat.sub in
/-- Claim C8 (witness): with `WTMP` absent but the alternate `WT` present,
the built record's water temperature resolves from the alternate column. -/
theorem C8_witness :
    buildReport "LJPC1" "u" aliasWitnessHeader aliasWitnessRow =
      Except.ok (c8wReport) ∧
    c8wReport.waterTempC = firstParsedAlias aliasWitnessHeader aliasWitnessRow waterTempFields ∧
    firstParsedAlias aliasWitnessHeader aliasWitnessRow waterTempFields = some (31 / 2) := by
  have hr : buildReport "LJPC1" "u" aliasWitnessHeader aliasWitnessRow =
      Except.ok c8wReport := by decide
  refine ⟨hr, ((C8_claim aliasWitnessHeader aliasWitnessRow).2.2 "LJPC1" "u" c8wReport hr).2.1, ?_⟩
  rw [(C8_claim aliasWitnessHeader aliasWitnessRow).1 waterTempFields]
  decide

unseal Rat.mul Rat.add Rat.inv Rat.sub in
/-- Claim C9 (counterexample): for the out-of-range feed the computed
warnings are non-empty, yet the handler's entire output is identical to the
output of the same pipeline with the validation call removed — the warnings
are discarded (logged only in development mode) and do not accompany the
response; the out-of-range value itself is served unaltered. -/
theorem C9_counterexample :
    validateData (c9ReportAt ndbcUrl1) ≠ [] ∧
    (50 : Rat) < 5003281 / 25000 ∧
    (c9ReportAt ndbcUrl1).waveHeightFt = some (5003281 / 25000) ∧
    (runPipeline "LJPC1" 5 c9Net ⟨none, none⟩).result =
      HandlerResult.ok (c9ReportAt ndbcUrl1) ∧
    runPipeline "LJPC1" 5 c9Net ⟨none, none⟩ =
      runPipelineNoValidate "LJPC1" 5 c9Net ⟨none, none⟩ := by
  exact ⟨by decide, by decide, by decide, by decide,
    runPipeline_eq_noValidate "LJPC1" 5 c9Net ⟨none, none⟩⟩

/-- Claim C9 (amended): validation never alters the record and never causes
the run to fail — even when the warnings are non-empty, the run succeeds,
serves exactly the record built before validation (out-of-range values are
neither rejected nor nulled) and stores it; but the warnings leave no trace
in the output (they are computed and discarded, logged only in development),
so they do not accompany the response. -/
theorem C9_claim (station : String) (now : Int)
    (net : String → Except String String) (c : CacheState) (t u : String) (r : Report)
    (hf : (fetchLoop net (candidateUrls station)).2.2 = some (t, u))
    (hp : parsePipeline station u t = Except.ok r)
    (_hw : validateData r ≠ []) :
    (runPipeline station now net c).result = HandlerResult.ok r ∧
    (runPipeline station now net c).cache = ⟨some r, some now⟩ ∧
    runPipeline station now net c = runPipelineNoValidate station now net c := by
  refine ⟨?_, ?_, runPipeline_eq_noValidate station now net c⟩
  · unfold runPipeline
    rcases hfl : fetchLoop net (candidateUrls station) with ⟨att, errs, fopt⟩
    rw [hfl] at hf
    simp only at hf
    subst hf
    dsimp only
    rw [hp]
  · unfold runPipeline
    rcases hfl : fetchLoop net (candidateUrls station) with ⟨att, errs, fopt⟩
    rw [hfl] at hf
    simp only at hf
    subst hf
    dsimp only
    rw [hp]

unseal Rat.mul Rat.add Rat.inv Rat.sub in
/-- Claim C9 (witness): the amended statement at the concrete out-of-range
feed. -/
theorem C9_witness :
    (runPipeline "LJPC1" 7 c9Net ⟨none, none⟩).result =
      HandlerResult.ok (c9ReportAt ndbcUrl1) :=
  (C9_claim "LJPC1" 7 c9Net ⟨none, none⟩ c9Feed ndbcUrl1 (c9ReportAt ndbcUrl1)
    (by decide) (by decide) (by decide)).1

/-- Claim C10: extraction of optional fields is total and never fatal — any
token whose `Number` conversion is not a finite value (garbage, the empty
string, the reserved markers) extracts as unknown rather than raising; and
whenever the four timestamp components pass the source's guard, the record
is built no matter what the other columns hold. -/
theorem C10_claim :
    (∀ s : String, jsNumber (trimStr s) = none → parseNum (some s) = none) ∧
    (∀ (station url : String) (header latest : List String),
      jsFalsy (yearOf header latest) = false → jsFalsy (monthOf header latest) = false →
      jsFalsy (dayOf header latest) = false → (hourOf header latest).isNone = false →
      ∃ r, buildReport station url header latest = Except.ok r) := by
  constructor
  · exact parseNum_of_unparsable
  · intro station url header latest h1 h2 h3 h4
    have hb : (jsFalsy (yearOf header latest) || jsFalsy (monthOf header latest) ||
        jsFalsy (dayOf header latest) || (hourOf header latest).isNone) = false := by
      rw [h1, h2, h3, h4]
      rfl
    exact ⟨builtRecord station url header latest, by rw [buildReport_eq, hb]; rfl⟩

unseal Rat.mul Rat.add Rat.inv Rat.sub in
/-- Claim C10 (witness): unparsable garbage in every optional column still
yields a successful run, and a garbage token extracts as unknown. -/
theorem C10_witness :
    parseNum (some "n0pe") = none ∧
    ∃ r, buildReport "LJPC1" "u" garbageHeader garbageRow = Except.ok r :=
  ⟨C10_claim.1 "n0pe" (by decide),
   C10_claim.2 "LJPC1" "u" garbageHeader garbageRow (by decide) (by decide)
     (by decide) (by decide)⟩

end Scripps
